import Mathlib

set_option maxRecDepth 10000

/-!
Verification of the research-aggregation core of the AI-newsletter MCP
server in `src/main.py`: the `safe_api_call` error boundary, the
`rate_limit` throttle, the four source adapters (`search_arxiv_papers`,
`fetch_github_trending`, `search_product_hunt`, `fetch_twitter_trends`)
and the batch aggregator `fetch_all_research`.

Embedding conventions.  Each Python function is embedded as a pure Lean
function.  The network transport of an adapter is an explicit argument (a
function from the request the adapter builds to an outcome); an exception
raised by the transport is the `PyOutcome.exn` constructor.  Wall-clock
time for the rate limiter is an explicit rational parameter, with
`time.sleep` idealized as exact.  Dates are integers (days); the
provider-side `strftime` formatting of dates is kept structural, so the
GitHub search query is a record of its components rather than a formatted
`q` string.  Adapters also return the list of provider requests they
issued, so "no network call was made" is the first component being `[]`.
The `rate_limit` decorator only delays a call and never changes its
return value, so the data-level adapter models omit it.
-/

/-- Exceptions the transport layer can raise, mirroring the three `except`
clauses of `safe_api_call`: `requests.Timeout`, any other
`requests.RequestException`, and any other `Exception`. -/
inductive PyExn where
  | timeout
  | requestException (msg : String)
  | otherExn (msg : String)
  deriving DecidableEq, Repr

/-- Outcome of running a Python computation: a returned value or a raised
exception. -/
inductive PyOutcome (α : Type) where
  | ok (val : α)
  | exn (e : PyExn)
  deriving DecidableEq, Repr

/-- A tool's returned dictionary: either the adapter-specific success
payload (whose `status` key is `"success"`), or an error dictionary
`{"status": status, "message": message}`. -/
inductive ToolReturn (α : Type) where
  | value (v : α)
  | errorDict (status : String) (message : String)
  deriving DecidableEq, Repr

/-- The `safe_api_call` decorator of `src/main.py` (lines 70-85): run the
wrapped function; convert `requests.Timeout` into
`{"status": "error", "message": "Request timeout"}`, any other
`requests.RequestException` into `"Request failed: ..."`, and any other
exception into `"Unexpected error: ..."`.  A returned value passes
through unchanged. -/
def safe_api_call {α : Type} : PyOutcome (ToolReturn α) → ToolReturn α
  | .ok r => r
  | .exn .timeout => .errorDict "error" "Request timeout"
  | .exn (.requestException m) => .errorDict "error" ("Request failed: " ++ m)
  | .exn (.otherExn m) => .errorDict "error" ("Unexpected error: " ++ m)

/-- The message `safe_api_call` produces for each exception kind (used to
state its specification; `safe_api_call` itself is defined by the three
source-level branches above). -/
def exnMessage : PyExn → String
  | .timeout => "Request timeout"
  | .requestException m => "Request failed: " ++ m
  | .otherExn m => "Unexpected error: " ++ m

/-- The check `result.get("status") == "success"` performed by
`fetch_all_research` on each adapter's returned dictionary. -/
def toolStatusSuccess {α : Type} : ToolReturn α → Bool
  | .value _ => true
  | .errorDict st _ => st == "success"

/-- The lookup `result.get("message")` performed by `fetch_all_research`
on a non-success dictionary (a success dictionary has no `message` key, so
Python would yield `None`; that branch is unreachable in the aggregator). -/
def toolMessage {α : Type} : ToolReturn α → String
  | .value _ => "None"
  | .errorDict _ m => m

/-- The lookup `result.get(itemsKey, [])` performed by the aggregator on an
adapter's returned dictionary, given the projection to the items list. -/
def toolItems {α : Type} {β : Type} (f : α → List β) : ToolReturn α → List β
  | .value v => f v
  | .errorDict _ _ => []

/-- Python string slicing `s[:n]`: the first `n` characters (code
points) of `s`. -/
def pyTake (s : String) (n : Nat) : String := ⟨s.data.take n⟩

/-- Mutable state of one `rate_limit` limiter: the `last_called[0]`
timestamp (initially `0.0`). -/
structure RateLimiterState where
  last_called : ℚ
  deriving DecidableEq

/-- The admission logic of the `rate_limit` decorator (lines 53-67) for a
call arriving at time `now`: compute `elapsed = now - last_called`,
`wait_time = 60 / calls_per_minute - elapsed`, sleep for `wait_time`
when it is positive, then store the current time into `last_called`.
Returns the sleep duration together with the updated state; the stored
timestamp is the admission time of the call. -/
def rate_limit_acquire (calls_per_minute : Nat) (s : RateLimiterState)
    (now : ℚ) : ℚ × RateLimiterState :=
  let elapsed := now - s.last_called
  let wait_time := 60 / (calls_per_minute : ℚ) - elapsed
  if 0 < wait_time then (wait_time, ⟨now + wait_time⟩) else (0, ⟨now⟩)

/-- One result of the arXiv provider (`arxiv.Search(...).results()`), with
the publication date as an integer day number. -/
structure ArxivEntry where
  title : String
  authors : List String
  summary : String
  published : Int
  entry_id : String
  pdf_url : String
  categories : List String
  deriving DecidableEq, Repr

/-- One entry of the `papers` list built by `search_arxiv_papers`. -/
structure PaperOut where
  title : String
  authors : List String
  summary : String
  published : Int
  url : String
  pdf_url : String
  categories : List String
  deriving DecidableEq, Repr

/-- The per-paper dictionary built inside the loop of
`search_arxiv_papers`: first 3 authors, summary truncated to 400
characters with an ellipsis, first 3 categories. -/
def mkPaper (e : ArxivEntry) : PaperOut :=
  { title := e.title
    authors := e.authors.take 3
    summary := if e.summary.length > 400 then pyTake e.summary 400 ++ "..." else e.summary
    published := e.published
    url := e.entry_id
    pdf_url := e.pdf_url
    categories := e.categories.take 3 }

/-- The collection loop of `search_arxiv_papers` (lines 260-275): walk the
provider's candidates in order; append a candidate whose `published` date
is at or after `date_threshold`; after appending, break as soon as the
collected length has reached `max_results`.  `budget` is
`max_results - len(papers)`; the `break` test `len(papers) >= max_results`
after an append is `budget ≤ 1`. -/
def collectPapers (date_threshold : Int) (budget : Nat) :
    List ArxivEntry → List PaperOut
  | [] => []
  | c :: rest =>
    if date_threshold ≤ c.published then
      if budget ≤ 1 then [mkPaper c]
      else mkPaper c :: collectPapers date_threshold (budget - 1) rest
    else collectPapers date_threshold budget rest

/-- Success payload of `search_arxiv_papers` (its `status` key is
`"success"`). -/
structure ArxivSuccess where
  count : Nat
  papers : List PaperOut
  query : String
  deriving DecidableEq, Repr

/-- The `search_arxiv_papers` adapter (lines 235-284): compute
`date_threshold = now - days_back`, request up to `max_results * 2`
candidates from the provider, collect in-window candidates up to
`max_results`, and return `{status, count, papers, query}`.  The whole
body runs under `safe_api_call`, so a transport exception becomes an
error dictionary. -/
def search_arxiv_papers (query : String) (max_results : Nat)
    (days_back : Nat) (now : Int)
    (transport : Nat → PyOutcome (List ArxivEntry)) : ToolReturn ArxivSuccess :=
  let date_threshold : Int := now - (days_back : Int)
  safe_api_call (match transport (max_results * 2) with
    | .exn e => .exn e
    | .ok entries =>
      let papers := collectPapers date_threshold max_results entries
      .ok (.value { count := papers.length, papers := papers, query := query }))

/-- The timeframe-to-lookback mapping at the top of
`fetch_github_trending`: `"daily"` is 1 day back, `"weekly"` 7, anything
else 30. -/
def timeframe_days (timeframe : String) : Nat :=
  if timeframe == "daily" then 1
  else if timeframe == "weekly" then 7
  else 30

/-- The `params` dictionary of the GitHub search request, kept structural:
the `q` string `language:{language} created:>{date} topic:{topic}` is
represented by its three components, with the date as the integer day
`now - timeframe_days timeframe`. -/
structure GhParams where
  language : String
  created_after : Int
  topic : String
  sort : String
  order : String
  per_page : Nat
  deriving DecidableEq, Repr

/-- The request parameters built by `fetch_github_trending` (lines
307-326): creation-date lower bound from the timeframe, sorted by stars
descending, fixed page size of 10. -/
def github_params (language timeframe topic : String) (now : Int) : GhParams :=
  { language := language
    created_after := now - (timeframe_days timeframe : Int)
    topic := topic
    sort := "stars"
    order := "desc"
    per_page := 10 }

/-- One item of the GitHub search response. -/
structure RepoItemRaw where
  name : String
  full_name : String
  description : Option String
  stargazers_count : Nat
  forks_count : Nat
  html_url : String
  language : Option String
  topics : List String
  created_at : String
  deriving DecidableEq, Repr

/-- One entry of the `repositories` list built by
`fetch_github_trending`. -/
structure RepoOut where
  name : String
  full_name : String
  description : String
  stars : Nat
  forks : Nat
  url : String
  language : String
  topics : List String
  created_at : String
  deriving DecidableEq, Repr

/-- The per-repository dictionary built by `fetch_github_trending`:
defaults for missing description/language, topic tags capped at 5. -/
def mkRepo (it : RepoItemRaw) : RepoOut :=
  { name := it.name
    full_name := it.full_name
    description := it.description.getD "No description available"
    stars := it.stargazers_count
    forks := it.forks_count
    url := it.html_url
    language := it.language.getD "N/A"
    topics := it.topics.take 5
    created_at := it.created_at }

/-- Success payload of `fetch_github_trending`. -/
structure GhSuccess where
  count : Nat
  repositories : List RepoOut
  timeframe : String
  deriving DecidableEq, Repr

/-- The `fetch_github_trending` adapter (lines 290-353): build the search
parameters, issue the request, map each response item, and return
`{status, count, repositories, timeframe}`; runs under `safe_api_call`. -/
def fetch_github_trending (language timeframe topic : String) (now : Int)
    (transport : GhParams → PyOutcome (List RepoItemRaw)) : ToolReturn GhSuccess :=
  let params := github_params language timeframe topic now
  safe_api_call (match transport params with
    | .exn e => .exn e
    | .ok items =>
      let repos := items.map mkRepo
      .ok (.value { count := repos.length, repositories := repos, timeframe := timeframe }))

/-- One node of the Product Hunt GraphQL response. -/
structure PhProduct where
  name : String
  tagline : String
  description : String
  votesCount : Nat
  url : String
  createdAt : String
  deriving DecidableEq, Repr

/-- One entry of the `products` list built by `search_product_hunt`. -/
structure ProductOut where
  name : String
  tagline : String
  description : String
  votes : Nat
  url : String
  launch_date : String
  deriving DecidableEq, Repr

/-- The per-product dictionary built by `search_product_hunt`:
description truncated to 200 characters. -/
def mkProduct (n : PhProduct) : ProductOut :=
  { name := n.name
    tagline := n.tagline
    description := pyTake n.description 200
    votes := n.votesCount
    url := n.url
    launch_date := n.createdAt }

/-- The Product Hunt GraphQL request: the only variable part of the query
template is `first: %d`. -/
structure PhRequest where
  first : Nat
  deriving DecidableEq, Repr

/-- Success payload of `search_product_hunt`. -/
structure PhSuccess where
  count : Nat
  products : List ProductOut
  deriving DecidableEq, Repr

/-- The `search_product_hunt` adapter (lines 359-430): if no API key is
configured, return the missing-configuration error dictionary without
building or issuing any request; otherwise issue the GraphQL request with
`first := limit`, map the response nodes, and return
`{status, count, products}` under `safe_api_call`.  The first component
is the list of requests actually issued. -/
def search_product_hunt (key : Option String) (days_back limit : Nat)
    (transport : PhRequest → PyOutcome (List PhProduct)) :
    List PhRequest × ToolReturn PhSuccess :=
  match key with
  | none =>
    ([], .errorDict "error"
      "Product Hunt API key not configured. Set PRODUCT_HUNT_API_KEY environment variable.")
  | some _ =>
    let req : PhRequest := { first := limit }
    ([req], safe_api_call (match transport req with
      | .exn e => .exn e
      | .ok nodes =>
        let products := nodes.map mkProduct
        .ok (.value { count := products.length, products := products })))

/-- The `public_metrics` of one tweet. -/
structure PublicMetrics where
  like_count : Nat
  retweet_count : Nat
  reply_count : Nat
  deriving DecidableEq, Repr

/-- One tweet of the Twitter search response `data` list. -/
structure RawTweet where
  id : String
  text : String
  author_id : String
  created_at : String
  public_metrics : PublicMetrics
  deriving DecidableEq, Repr

/-- One user of the response `includes.users` list. -/
structure TwUser where
  id : String
  username : String
  name : String
  deriving DecidableEq, Repr

/-- One entry of the `trending_tweets` list built by
`fetch_twitter_trends`. -/
structure TrendTweet where
  text : String
  author : String
  author_name : String
  likes : Nat
  retweets : Nat
  replies : Nat
  created_at : String
  url : String
  deriving DecidableEq, Repr

/-- The lookup in the `users` dictionary (built keyed by user id; a
Python dict comprehension keeps the last entry for a duplicated key). -/
def usersLookup (users : List TwUser) (aid : String) : Option TwUser :=
  (users.filter (fun u => u.id == aid)).getLast?

/-- The per-tweet dictionary built by `fetch_twitter_trends`: text
truncated to 280 characters, author fields from the users lookup with the
source's fallbacks, and the reconstructed tweet URL. -/
def buildTweet (users : List TwUser) (t : RawTweet) : TrendTweet :=
  { text := pyTake t.text 280
    author := "@" ++ (match usersLookup users t.author_id with
      | some u => u.username
      | none => "unknown")
    author_name := (match usersLookup users t.author_id with
      | some u => u.name
      | none => "Unknown")
    likes := t.public_metrics.like_count
    retweets := t.public_metrics.retweet_count
    replies := t.public_metrics.reply_count
    created_at := t.created_at
    url := "https://twitter.com/" ++ (match usersLookup users t.author_id with
      | some u => u.username
      | none => "i") ++ "/status/" ++ t.id }

/-- The sort key of `tweets.sort(key=lambda x: x["likes"] + x["retweets"] * 2,
reverse=True)`. -/
def tweetScore (t : TrendTweet) : Nat := t.likes + t.retweets * 2

/-- Descending-score order used by the tweet sort: `a` comes no later than
`b` when `b`'s score is at most `a`'s. -/
def twGE (a b : TrendTweet) : Prop := tweetScore b ≤ tweetScore a

instance : DecidableRel twGE := fun _ _ => Nat.decLe _ _

instance : IsTotal TrendTweet twGE := ⟨fun a b => Nat.le_total (tweetScore b) (tweetScore a)⟩

instance : IsTrans TrendTweet twGE := ⟨fun _ _ _ hab hbc => Nat.le_trans hbc hab⟩

/-- The stable descending sort `tweets.sort(key=..., reverse=True)`. -/
def sortTweets (l : List TrendTweet) : List TrendTweet := List.insertionSort twGE l

/-- The filter-and-map loop of `fetch_twitter_trends` (lines 487-500):
keep tweets whose `like_count` meets `min_likes` and build the output
dictionary for each. -/
def filteredTweets (min_likes : Nat) (users : List TwUser)
    (raws : List RawTweet) : List TrendTweet :=
  (raws.filter (fun t => decide (min_likes ≤ t.public_metrics.like_count))).map (buildTweet users)

/-- Success payload of `fetch_twitter_trends`: `count` is the length of
the full filtered-and-sorted list, `trending_tweets` only its first 10. -/
structure TwitterSuccess where
  count : Nat
  trending_tweets : List TrendTweet
  deriving DecidableEq, Repr

/-- The success-path body of `fetch_twitter_trends`: filter by likes, sort
by the composite score descending, report the full count and the top
10. -/
def twitterBody (min_likes : Nat) (users : List TwUser)
    (raws : List RawTweet) : TwitterSuccess :=
  let tweets := sortTweets (filteredTweets min_likes users raws)
  { count := tweets.length, trending_tweets := tweets.take 10 }

/-- The Twitter recent-search request: the query built from the hashtags
and the fixed page size of 100. -/
structure TwRequest where
  query : String
  max_results : Nat
  deriving DecidableEq, Repr

/-- The default hashtag set of `fetch_twitter_trends`. -/
def twDefaultHashtags : List String :=
  ["AI", "MachineLearning", "LLM", "ChatGPT", "GenerativeAI"]

/-- The query string `({#tag1} OR {#tag2} ...) -is:retweet lang:en`. -/
def twQuery (hashtags : List String) : String :=
  "(" ++ String.intercalate " OR " (hashtags.map (fun t => "#" ++ t)) ++ ") -is:retweet lang:en"

/-- The Twitter search response: the `data` tweets and the
`includes.users` expansion. -/
structure TwResponse where
  data : List RawTweet
  includes_users : List TwUser
  deriving DecidableEq, Repr

/-- The `fetch_twitter_trends` adapter (lines 436-511): if no bearer token
is configured, return the missing-configuration error dictionary without
issuing any request; otherwise build the query from the hashtags (default
set when omitted), request up to 100 tweets, filter by `min_likes`, sort
by the composite engagement score descending and return the top 10.  The
`days_back` parameter is accepted but unused by the source.  The first
component is the list of requests actually issued. -/
def fetch_twitter_trends (token : Option String)
    (hashtags : Option (List String)) (min_likes : Nat) (days_back : Nat)
    (transport : TwRequest → PyOutcome TwResponse) :
    List TwRequest × ToolReturn TwitterSuccess :=
  match token with
  | none =>
    ([], .errorDict "error"
      "Twitter API token not configured. Set TWITTER_BEARER_TOKEN environment variable.")
  | some _ =>
    let tags := hashtags.getD twDefaultHashtags
    let req : TwRequest := { query := twQuery tags, max_results := 100 }
    ([req], safe_api_call (match transport req with
      | .exn e => .exn e
      | .ok resp => .ok (.value (twitterBody min_likes resp.includes_users resp.data))))

/-- The optional `config` dictionary of `fetch_all_research`: each key may
be present or absent, read with `config.get(key, default)`. -/
structure FAConfig where
  days_back : Option Nat
  max_papers : Option Nat
  max_repos : Option Nat
  max_products : Option Nat
  deriving DecidableEq, Repr

/-- The default dictionary `fetch_all_research` substitutes when called
with `config=None` (all four keys present). -/
def defaultConfig : FAConfig := ⟨some 7, some 10, some 10, some 10⟩

/-- The `if config is None` substitution at the top of
`fetch_all_research`. -/
def effConfig : Option FAConfig → FAConfig
  | none => defaultConfig
  | some c => c

/-- The credentials `fetch_all_research` consults: presence of
`PRODUCT_HUNT_API_KEY` and `TWITTER_BEARER_TOKEN`. -/
structure Env where
  product_hunt_key : Option String
  twitter_token : Option String
  deriving DecidableEq, Repr

/-- The external world of one `fetch_all_research` run: the four provider
transports (each a function from the request the adapter builds to an
outcome) and the current time as an integer day. -/
structure Transports where
  arxiv : Nat → PyOutcome (List ArxivEntry)
  github : GhParams → PyOutcome (List RepoItemRaw)
  producthunt : PhRequest → PyOutcome (List PhProduct)
  twitter : TwRequest → PyOutcome TwResponse
  now : Int

/-- One per-source block of `fetch_all_research`: on a success-status
result record the items under the source's key; otherwise append
`"{Label}: {message}"` to the errors.  Returns the optional recorded
items and the (zero- or one-element) list of appended errors. -/
def sourceStep {α : Type} {β : Type} (label : String) (f : α → List β)
    (r : ToolReturn α) : Option (List β) × List String :=
  if toolStatusSuccess r then (some (toolItems f r), [])
  else (none, [label ++ ": " ++ toolMessage r])

/-- The `research_data` dictionary of the aggregate result: one optional
key per source, present exactly when that source's block recorded
items. -/
structure ResearchData where
  papers : Option (List PaperOut)
  repositories : Option (List RepoOut)
  products : Option (List ProductOut)
  tweets : Option (List TrendTweet)
  deriving DecidableEq, Repr

/-- `len(results)`: the number of keys present in `research_data`. -/
def countSome (d : ResearchData) : Nat :=
  (cond d.papers.isSome 1 0) + (cond d.repositories.isSome 1 0) +
    (cond d.products.isSome 1 0) + (cond d.tweets.isSome 1 0)

/-- Whether an optional source entry holds a non-empty items list. -/
def optNonEmpty {β : Type} : Option (List β) → Bool
  | some (_ :: _) => true
  | _ => false

/-- Modelled from the spec: "`sourcesFetched` == count of keys in
`bySource` with non-empty success" — the number of `research_data` keys
holding a non-empty items list.  (Definition follows the spec's words,
for comparison with what the code computes.) -/
def nonEmptySourceCount (d : ResearchData) : Nat :=
  (cond (optNonEmpty d.papers) 1 0) + (cond (optNonEmpty d.repositories) 1 0) +
    (cond (optNonEmpty d.products) 1 0) + (cond (optNonEmpty d.tweets) 1 0)

/-- The dictionary returned by `fetch_all_research`. -/
structure AggregateResult where
  status : String
  research_data : ResearchData
  errors : List String
  sources_fetched : Nat
  config : FAConfig
  deriving DecidableEq, Repr

/-- The papers call of `fetch_all_research`:
`search_arxiv_papers(max_results=config.get("max_papers", 10),
days_back=config.get("days_back", 7))` with the adapter's default
query. -/
def papersResult (tr : Transports) (c : FAConfig) : ToolReturn ArxivSuccess :=
  search_arxiv_papers "artificial intelligence" (c.max_papers.getD 10)
    (c.days_back.getD 7) tr.now tr.arxiv

/-- The repos call of `fetch_all_research`:
`fetch_github_trending(timeframe="weekly")` with the adapter's default
language and topic; no value of the config is passed. -/
def reposResult (tr : Transports) : ToolReturn GhSuccess :=
  fetch_github_trending "python" "weekly" "artificial-intelligence" tr.now tr.github

/-- The products call of `fetch_all_research`:
`search_product_hunt(days_back=config.get("days_back", 7),
limit=config.get("max_products", 10))`. -/
def productsResult (tr : Transports) (c : FAConfig) (k : String) : ToolReturn PhSuccess :=
  (search_product_hunt (some k) (c.days_back.getD 7) (c.max_products.getD 10) tr.producthunt).2

/-- The tweets call of `fetch_all_research`:
`fetch_twitter_trends(days_back=config.get("days_back", 7))` with the
adapter's default hashtags and `min_likes`. -/
def tweetsResult (tr : Transports) (c : FAConfig) (k : String) : ToolReturn TwitterSuccess :=
  (fetch_twitter_trends (some k) none 100 (c.days_back.getD 7) tr.twitter).2

/-- The batch aggregator `fetch_all_research` (lines 1130-1213): always
attempt papers and repos; attempt products and tweets only when their
credential is configured; record each success's items under its key and
each failure as `"{Label}: {message}"`; status is `"success"` when no
errors were recorded and `"partial"` otherwise; `sources_fetched` is the
number of keys recorded.  The adapters never raise (each runs under
`safe_api_call`), so the aggregator's own `try/except` arms are
unreachable and the outermost `safe_api_call` passes the result
through. -/
def fetch_all_research (env : Env) (tr : Transports)
    (cfgOpt : Option FAConfig) : AggregateResult :=
  let config := effConfig cfgOpt
  let ps := sourceStep "Papers" ArxivSuccess.papers (papersResult tr config)
  let rs := sourceStep "Repos" GhSuccess.repositories (reposResult tr)
  let prs := match env.product_hunt_key with
    | some k => sourceStep "Products" PhSuccess.products (productsResult tr config k)
    | none => (none, [])
  let ts := match env.twitter_token with
    | some k => sourceStep "Tweets" TwitterSuccess.trending_tweets (tweetsResult tr config k)
    | none => (none, [])
  let errs := ps.2 ++ rs.2 ++ prs.2 ++ ts.2
  let data : ResearchData := ⟨ps.1, rs.1, prs.1, ts.1⟩
  { status := if errs.isEmpty then "success" else "partial"
    research_data := data
    errors := errs
    sources_fetched := countSome data
    config := config }

/-- Transports that raise the same exception on every request. -/
def trThrow (e : PyExn) (now : Int) : Transports :=
  { arxiv := fun _ => .exn e
    github := fun _ => .exn e
    producthunt := fun _ => .exn e
    twitter := fun _ => .exn e
    now := now }

/-- Concrete world for the single-failure witness: papers, products and
tweets succeed (with empty item lists), the GitHub request times out. -/
def trW : Transports :=
  { arxiv := fun _ => .ok []
    github := fun _ => .exn .timeout
    producthunt := fun _ => .ok []
    twitter := fun _ => .ok ⟨[], []⟩
    now := 0 }

/-- Concrete world for the `sources_fetched` counterexample: the arXiv
provider succeeds with zero candidates, every other request times out. -/
def trC3 : Transports :=
  { arxiv := fun _ => .ok []
    github := fun _ => .exn .timeout
    producthunt := fun _ => .exn .timeout
    twitter := fun _ => .exn .timeout
    now := 0 }

/-- A GitHub response item used in the `max_repos` counterexample. -/
def repoRaw0 : RepoItemRaw :=
  ⟨"r", "o/r", some "d", 1, 1, "u", some "python", [], "c"⟩

/-- World whose GitHub transport returns ten repositories and whose other
transports time out. -/
def trTenRepos : Transports :=
  { arxiv := fun _ => .exn .timeout
    github := fun _ => .ok (List.replicate 10 repoRaw0)
    producthunt := fun _ => .exn .timeout
    twitter := fun _ => .exn .timeout
    now := 0 }

/-- A config overriding `max_repos` to 3. -/
def cfgMR3 : FAConfig := ⟨some 7, some 10, some 3, some 10⟩

/-- The same config with `max_repos` left at 10. -/
def cfgMR10 : FAConfig := ⟨some 7, some 10, some 10, some 10⟩

/-- An arXiv candidate outside every lookback window used below. -/
def eOld : ArxivEntry := ⟨"old", [], "s", 0, "u", "p", []⟩

/-- An arXiv candidate inside the lookback window used below. -/
def eNew : ArxivEntry := ⟨"new", [], "s", 100, "u", "p", []⟩

/-- Twenty-five arXiv candidates of which exactly four are inside the
window (published at day 100, threshold day 93). -/
def entries25 : List ArxivEntry :=
  List.replicate 3 eOld ++ [eNew] ++ List.replicate 7 eOld ++ [eNew] ++
    List.replicate 5 eOld ++ [eNew] ++ List.replicate 6 eOld ++ [eNew]

/-- Example tweets with likes 50, 150 and 300 (the 150-like tweet has 300
retweets, so its composite score 750 beats the 300-like tweet's 300). -/
def exT50 : RawTweet := ⟨"1", "low", "a1", "d1", ⟨50, 0, 0⟩⟩

/-- The 150-like, 300-retweet example tweet. -/
def exT150 : RawTweet := ⟨"2", "mid", "a2", "d2", ⟨150, 300, 0⟩⟩

/-- The 300-like example tweet. -/
def exT300 : RawTweet := ⟨"3", "high", "a3", "d3", ⟨300, 0, 0⟩⟩

/-- The example post list with likes `[50, 150, 300]`. -/
def exRaws : List RawTweet := [exT50, exT150, exT300]

/-- Eleven identical tweets that all pass a zero likes threshold. -/
def elevenRaws : List RawTweet := List.replicate 11 exT300

/-! ### Helper lemmas -/

theorem sourceStep_of_success {α : Type} {β : Type} (label : String)
    (f : α → List β) {r : ToolReturn α} (h : toolStatusSuccess r = true) :
    sourceStep label f r = (some (toolItems f r), []) := by
  simp [sourceStep, h]

theorem sourceStep_of_failure {α : Type} {β : Type} (label : String)
    (f : α → List β) {r : ToolReturn α} (h : toolStatusSuccess r = false) :
    sourceStep label f r = (none, [label ++ ": " ++ toolMessage r]) := by
  simp [sourceStep, h]

theorem sourceStep_fst_isSome {α : Type} {β : Type} (label : String)
    (f : α → List β) (r : ToolReturn α) :
    ((sourceStep label f r).1).isSome = toolStatusSuccess r := by
  cases h : toolStatusSuccess r <;> simp [sourceStep, h]

theorem collectPapers_eq_take (thr : Int) (l : List ArxivEntry) :
    ∀ b : Nat, 1 ≤ b →
      collectPapers thr b l =
        ((l.filter (fun e => decide (thr ≤ e.published))).take b).map mkPaper := by
  induction l with
  | nil => intro b _; simp [collectPapers]
  | cons c rest ih =>
    intro b hb
    cases b with
    | zero => omega
    | succ n =>
      by_cases hc : thr ≤ c.published
      · cases n with
        | zero => simp [collectPapers, hc]
        | succ m =>
          have h2 : ¬ (m + 1 + 1 ≤ 1) := by omega
          simp only [collectPapers, if_pos hc, if_neg h2, Nat.add_sub_cancel]
          rw [ih (m + 1) (by omega)]
          simp [hc]
      · simp only [collectPapers, if_neg hc]
        rw [ih (n + 1) hb]
        simp [hc]

/-! ### Claim theorems -/

/-- C5: No exception from the transport layer propagates past an
adapter's boundary: `safe_api_call` turns a timeout into the returned
dictionary `{status: "error", message: "Request timeout"}` and every
other raised exception into a returned `{status: "error", message}`
value, passes returned values through, and each wrapped adapter
(`search_arxiv_papers`, `fetch_github_trending`, `search_product_hunt`,
`fetch_twitter_trends`, `fetch_all_research`) therefore returns an error
dictionary — never a raised exception — when its transport raises. -/
theorem safe_api_call_error_boundary :
    (∀ e : PyExn, safe_api_call (α := ArxivSuccess) (.exn e) = .errorDict "error" (exnMessage e)) ∧
    (exnMessage .timeout = "Request timeout") ∧
    (∀ (α : Type) (r : ToolReturn α), safe_api_call (.ok r) = r) ∧
    (∀ (q : String) (mr db : Nat) (now : Int) (e : PyExn),
      search_arxiv_papers q mr db now (fun _ => .exn e) = .errorDict "error" (exnMessage e)) ∧
    (∀ (lang tf top : String) (now : Int) (e : PyExn),
      fetch_github_trending lang tf top now (fun _ => .exn e) = .errorDict "error" (exnMessage e)) ∧
    (∀ (k : String) (db lim : Nat) (e : PyExn),
      (search_product_hunt (some k) db lim (fun _ => .exn e)).2 = .errorDict "error" (exnMessage e)) ∧
    (∀ (k : String) (hs : Option (List String)) (ml db : Nat) (e : PyExn),
      (fetch_twitter_trends (some k) hs ml db (fun _ => .exn e)).2 = .errorDict "error" (exnMessage e)) ∧
    (∀ (e : PyExn) (pk tk : String) (now : Int) (cfgOpt : Option FAConfig),
      (fetch_all_research ⟨some pk, some tk⟩ (trThrow e now) cfgOpt).status = "partial" ∧
      (fetch_all_research ⟨some pk, some tk⟩ (trThrow e now) cfgOpt).errors.length = 4) := by
  refine ⟨fun e => ?_, rfl, fun α r => rfl, fun q mr db now e => ?_,
    fun lang tf top now e => ?_, fun k db lim e => ?_, fun k hs ml db e => ?_,
    fun e pk tk now cfgOpt => ?_⟩
  · cases e <;> rfl
  · cases e <;> rfl
  · cases e <;> rfl
  · cases e <;> rfl
  · cases e <;> rfl
  · cases e <;>
      simp [fetch_all_research, trThrow, papersResult, reposResult, productsResult,
        tweetsResult, search_arxiv_papers, fetch_github_trending, search_product_hunt,
        fetch_twitter_trends, safe_api_call, sourceStep, toolStatusSuccess, toolMessage]

/-- C5 witness: a concrete timeout on the arXiv transport comes back as
the returned dictionary `{status: "error", message: "Request timeout"}`. -/
theorem safe_api_call_error_boundary_witness :
    search_arxiv_papers "artificial intelligence" 10 7 0 (fun _ => .exn .timeout) =
      .errorDict "error" (exnMessage .timeout) :=
  safe_api_call_error_boundary.2.2.2.1 "artificial intelligence" 10 7 0 .timeout

/-- C6: with no Product Hunt API key the adapter returns
`{status: "error"}` with a message naming the missing configuration and
issues no request, and likewise for `fetch_twitter_trends` with no
bearer token. -/
theorem missing_credential_no_network :
    (∀ (db lim : Nat) (t : PhRequest → PyOutcome (List PhProduct)),
      search_product_hunt none db lim t =
        ([], .errorDict "error"
          "Product Hunt API key not configured. Set PRODUCT_HUNT_API_KEY environment variable.")) ∧
    (∀ (hs : Option (List String)) (ml db : Nat) (t : TwRequest → PyOutcome TwResponse),
      fetch_twitter_trends none hs ml db t =
        ([], .errorDict "error"
          "Twitter API token not configured. Set TWITTER_BEARER_TOKEN environment variable.")) :=
  ⟨fun _ _ _ => rfl, fun _ _ _ _ => rfl⟩

/-- C6 witness: the missing-credential returns at concrete arguments. -/
theorem missing_credential_no_network_witness :
    search_product_hunt none 7 10 (fun _ => .exn .timeout) =
        ([], .errorDict "error"
          "Product Hunt API key not configured. Set PRODUCT_HUNT_API_KEY environment variable.") ∧
    fetch_twitter_trends none none 100 7 (fun _ => .exn .timeout) =
        ([], .errorDict "error"
          "Twitter API token not configured. Set TWITTER_BEARER_TOKEN environment variable.") :=
  ⟨missing_credential_no_network.1 7 10 _, missing_credential_no_network.2 none 100 7 _⟩

/-- C7: for a limiter with budget `C` calls per minute, `acquire` sleeps
for exactly `max 0 (60/C - elapsed)` where `elapsed` is the time since
the last admitted call, and consecutive admitted calls are at least
`60/C` seconds apart (admission times are the stored `last_called`
timestamps). -/
theorem rate_limit_spacing (C : Nat) (s : RateLimiterState) (now : ℚ)
    (hC : 0 < C) :
    (rate_limit_acquire C s now).1 = max 0 (60 / (C : ℚ) - (now - s.last_called)) ∧
    60 / (C : ℚ) ≤ (rate_limit_acquire C s now).2.last_called - s.last_called := by
  have _hC : (0 : ℚ) < C := by exact_mod_cast hC
  unfold rate_limit_acquire
  by_cases h : 0 < 60 / (C : ℚ) - (now - s.last_called)
  · rw [if_pos h]
    constructor
    · exact (max_eq_right h.le).symm
    · simp only
      linarith
  · rw [if_neg h]
    constructor
    · exact (max_eq_left (by linarith)).symm
    · simp only
      linarith

/-- C7 witness: with a budget of 30 calls per minute (spacing 2 s), a
call arriving 1 s after the last admission sleeps for 1 s and is admitted
2 s after the previous one. -/
theorem rate_limit_spacing_witness :
    0 < 30 ∧
    ((rate_limit_acquire 30 ⟨0⟩ 1).1 = max 0 (60 / (30 : ℚ) - (1 - (RateLimiterState.mk 0).last_called)) ∧
      60 / (30 : ℚ) ≤ (rate_limit_acquire 30 ⟨0⟩ 1).2.last_called - (RateLimiterState.mk 0).last_called) :=
  ⟨by norm_num, rate_limit_spacing 30 ⟨0⟩ 1 (by norm_num)⟩

/-- C8: a successful `fetch_twitter_trends` call returns exactly the
posts meeting the `min_likes` threshold (the sorted list is a permutation
of the filtered list), sorted in descending order of the composite score
`likes + 2*retweets`, truncated to at most the first 10 after sorting;
in particular for posts with likes `[50, 150, 300]` and `min_likes=100`
exactly the 150- and 300-like posts are returned, in score order. -/
theorem twitter_filter_sort_top10 :
    (∀ (tk : String) (hs : Option (List String)) (minL db : Nat) (resp : TwResponse),
      (fetch_twitter_trends (some tk) hs minL db (fun _ => .ok resp)).2 =
        .value (twitterBody minL resp.includes_users resp.data)) ∧
    (∀ (minL : Nat) (users : List TwUser) (raws : List RawTweet),
      (twitterBody minL users raws).trending_tweets =
        (sortTweets (filteredTweets minL users raws)).take 10 ∧
      (sortTweets (filteredTweets minL users raws)).Perm (filteredTweets minL users raws) ∧
      List.Pairwise (fun a b => tweetScore b ≤ tweetScore a)
        (twitterBody minL users raws).trending_tweets ∧
      (twitterBody minL users raws).trending_tweets.length ≤ 10 ∧
      (twitterBody minL users raws).trending_tweets.all
        (fun t => decide (minL ≤ t.likes)) = true) ∧
    (twitterBody 100 [] exRaws =
      { count := 2, trending_tweets := [buildTweet [] exT150, buildTweet [] exT300] }) := by
  refine ⟨fun tk hs minL db resp => rfl,
    fun minL users raws => ⟨rfl, List.perm_insertionSort twGE _, ?_, ?_, ?_⟩, by decide⟩
  · exact (List.sorted_insertionSort twGE
      (filteredTweets minL users raws)).sublist (List.take_sublist _ _)
  · show ((sortTweets (filteredTweets minL users raws)).take 10).length ≤ 10
    rw [List.length_take]
    exact min_le_left _ _
  · rw [List.all_eq_true]
    intro t ht
    have h1 : t ∈ sortTweets (filteredTweets minL users raws) :=
      List.take_subset _ _ ht
    have h2 : t ∈ filteredTweets minL users raws :=
      (List.perm_insertionSort twGE _).subset h1
    simp only [filteredTweets, List.mem_map, List.mem_filter] at h2
    obtain ⟨raw, ⟨_, hpass⟩, rfl⟩ := h2
    simpa [buildTweet] using hpass

/-- C8 witness: the example list at concrete arguments. -/
theorem twitter_filter_sort_top10_witness :
    (twitterBody 100 [] exRaws).trending_tweets =
        (sortTweets (filteredTweets 100 [] exRaws)).take 10 ∧
      (sortTweets (filteredTweets 100 [] exRaws)).Perm (filteredTweets 100 [] exRaws) ∧
      List.Pairwise (fun a b => tweetScore b ≤ tweetScore a)
        (twitterBody 100 [] exRaws).trending_tweets ∧
      (twitterBody 100 [] exRaws).trending_tweets.length ≤ 10 ∧
      (twitterBody 100 [] exRaws).trending_tweets.all
        (fun t => decide (100 ≤ t.likes)) = true :=
  twitter_filter_sort_top10.2.1 100 [] exRaws

/-- C9: `search_arxiv_papers` asks the provider for `max_results * 2`
candidates (the result depends on the transport only at that request
size), keeps exactly the candidates inside the lookback window in order,
truncated to `max_results`; with 25 candidates of which 4 are in the
window and `max_results = 10`, exactly 4 papers are returned. -/
theorem arxiv_window_filter_truncate :
    (∀ (q : String) (mr db : Nat) (now : Int) (entries : Nat → List ArxivEntry),
      1 ≤ mr →
      search_arxiv_papers q mr db now (fun n => .ok (entries n)) =
        .value { count := ((((entries (mr * 2)).filter
                  (fun e => decide (now - (db : Int) ≤ e.published))).take mr).map mkPaper).length
                 papers := (((entries (mr * 2)).filter
                  (fun e => decide (now - (db : Int) ≤ e.published))).take mr).map mkPaper
                 query := q }) ∧
    (∀ (q : String) (mr db : Nat) (now : Int)
        (t t' : Nat → PyOutcome (List ArxivEntry)),
      t (mr * 2) = t' (mr * 2) →
      search_arxiv_papers q mr db now t = search_arxiv_papers q mr db now t') ∧
    ((toolItems ArxivSuccess.papers
        (search_arxiv_papers "artificial intelligence" 10 7 100
          (fun _ => .ok entries25))).length = 4) := by
  refine ⟨fun q mr db now entries hmr => ?_, fun q mr db now t t' h => ?_, by decide⟩
  · simp only [search_arxiv_papers, safe_api_call]
    rw [collectPapers_eq_take _ _ _ hmr]
  · simp only [search_arxiv_papers]
    rw [h]

/-- C9 witness: both hypotheses discharged at concrete inputs. -/
theorem arxiv_window_filter_truncate_witness :
    (1 ≤ 10 ∧
      search_arxiv_papers "artificial intelligence" 10 7 100 (fun n => .ok (entries25)) =
        .value { count := ((((entries25).filter
                  (fun e => decide ((100 : Int) - (7 : Int) ≤ e.published))).take 10).map mkPaper).length
                 papers := (((entries25).filter
                  (fun e => decide ((100 : Int) - (7 : Int) ≤ e.published))).take 10).map mkPaper
                 query := "artificial intelligence" }) ∧
    search_arxiv_papers "x" 2 0 0 (fun _ => .ok ([] : List ArxivEntry)) =
      search_arxiv_papers "x" 2 0 0 (fun _ => .ok ([] : List ArxivEntry)) :=
  ⟨⟨by decide, arxiv_window_filter_truncate.1 "artificial intelligence" 10 7 100
      (fun _ => entries25) (by decide)⟩,
    arxiv_window_filter_truncate.2.1 "x" 2 0 0 _ _ rfl⟩

/-- C10: the `count` field of a successful `fetch_twitter_trends` result
is the number of posts that passed the `min_likes` filter before the
top-10 truncation, so whenever more than 10 posts pass, `count` strictly
exceeds the number of items in `trending_tweets`. -/
theorem twitter_count_prefilter :
    (∀ (tk : String) (hs : Option (List String)) (minL db : Nat) (resp : TwResponse),
      (fetch_twitter_trends (some tk) hs minL db (fun _ => .ok resp)).2 =
        .value (twitterBody minL resp.includes_users resp.data)) ∧
    (∀ (minL : Nat) (users : List TwUser) (raws : List RawTweet),
      (twitterBody minL users raws).count = (filteredTweets minL users raws).length ∧
      (10 < (twitterBody minL users raws).count →
        (twitterBody minL users raws).trending_tweets.length <
          (twitterBody minL users raws).count)) := by
  refine ⟨fun tk hs minL db resp => rfl, fun minL users raws => ⟨?_, fun h => ?_⟩⟩
  · exact (List.perm_insertionSort twGE _).length_eq
  · show ((sortTweets (filteredTweets minL users raws)).take 10).length <
      (sortTweets (filteredTweets minL users raws)).length
    rw [List.length_take]
    have hc : 10 < (sortTweets (filteredTweets minL users raws)).length := h
    omega

/-- C10 witness: with eleven posts passing the filter, `count` is 11 but
only 10 items are returned. -/
theorem twitter_count_prefilter_witness :
    10 < (twitterBody 0 [] elevenRaws).count ∧
    (twitterBody 0 [] elevenRaws).trending_tweets.length <
      (twitterBody 0 [] elevenRaws).count :=
  ⟨by decide, (twitter_count_prefilter.2 0 [] elevenRaws).2 (by decide)⟩

/-- C2: `fetch_all_research` returns status `"success"` if and only if
its errors list is empty, and `"partial"` exactly otherwise. -/
theorem fetch_all_status_iff_errors (env : Env) (tr : Transports)
    (cfgOpt : Option FAConfig) :
    ((fetch_all_research env tr cfgOpt).status = "success" ↔
      (fetch_all_research env tr cfgOpt).errors = []) ∧
    ((fetch_all_research env tr cfgOpt).status = "partial" ↔
      (fetch_all_research env tr cfgOpt).errors ≠ []) := by
  have h : (fetch_all_research env tr cfgOpt).status =
      if (fetch_all_research env tr cfgOpt).errors.isEmpty then "success" else "partial" := rfl
  have hne : ("partial" : String) ≠ "success" := by decide
  cases herr : (fetch_all_research env tr cfgOpt).errors with
  | nil => rw [herr] at h; simp only [List.isEmpty_nil, if_true] at h; simp [h, hne]
  | cons a l =>
    rw [herr] at h
    simp only [List.isEmpty_cons, if_false] at h
    simp [h, hne]

/-- C2 witness: a run with one failing source has a non-empty errors
list and status `"partial"`; the iff instantiated there. -/
theorem fetch_all_status_iff_errors_witness :
    ((fetch_all_research ⟨none, none⟩ (trThrow .timeout 0) none).status = "success" ↔
      (fetch_all_research ⟨none, none⟩ (trThrow .timeout 0) none).errors = []) ∧
    ((fetch_all_research ⟨none, none⟩ (trThrow .timeout 0) none).status = "partial" ↔
      (fetch_all_research ⟨none, none⟩ (trThrow .timeout 0) none).errors ≠ []) :=
  fetch_all_status_iff_errors ⟨none, none⟩ (trThrow .timeout 0) none

/-- C3 (amended): `sources_fetched` equals the number of attempted
sources whose adapter result had status `"success"`, counting a success
with an empty items list as fetched — not the number of sources with a
non-empty items list. -/
theorem fetch_all_sources_fetched_eq_success_count (env : Env)
    (tr : Transports) (cfgOpt : Option FAConfig) :
    (fetch_all_research env tr cfgOpt).sources_fetched =
      (cond (toolStatusSuccess (papersResult tr (effConfig cfgOpt))) 1 0) +
      (cond (toolStatusSuccess (reposResult tr)) 1 0) +
      (match env.product_hunt_key with
        | some k => cond (toolStatusSuccess (productsResult tr (effConfig cfgOpt) k)) 1 0
        | none => 0) +
      (match env.twitter_token with
        | some k => cond (toolStatusSuccess (tweetsResult tr (effConfig cfgOpt) k)) 1 0
        | none => 0) := by
  rcases env with ⟨pk, tk⟩
  cases pk <;> cases tk <;>
    simp [fetch_all_research, countSome, sourceStep_fst_isSome]

/-- C3 counterexample: with the arXiv provider succeeding with zero
in-window candidates and every other source failing or skipped,
`sources_fetched` is 1 while the number of `research_data` keys with a
non-empty items list is 0 — the claim's equality fails on this run. -/
theorem fetch_all_sources_fetched_counts_empty_success :
    (fetch_all_research ⟨none, none⟩ trC3 none).sources_fetched = 1 ∧
    nonEmptySourceCount (fetch_all_research ⟨none, none⟩ trC3 none).research_data = 0 ∧
    (fetch_all_research ⟨none, none⟩ trC3 none).sources_fetched ≠
      nonEmptySourceCount (fetch_all_research ⟨none, none⟩ trC3 none).research_data := by
  refine ⟨rfl, rfl, by decide⟩

/-- C1: with all four sources configured, each successfully fetched
source's items are recorded in `research_data` regardless of the other
sources' outcomes (failure isolation), and when exactly one source fails
the result has status `"partial"`, `sources_fetched = 3`, and an errors
list that is exactly the one entry naming the failed source. -/
theorem fetch_all_single_failure_isolated (pk tk : String) (tr : Transports)
    (cfgOpt : Option FAConfig) :
    ((toolStatusSuccess (papersResult tr (effConfig cfgOpt)) = true →
        (fetch_all_research ⟨some pk, some tk⟩ tr cfgOpt).research_data.papers =
          some (toolItems ArxivSuccess.papers (papersResult tr (effConfig cfgOpt)))) ∧
     (toolStatusSuccess (reposResult tr) = true →
        (fetch_all_research ⟨some pk, some tk⟩ tr cfgOpt).research_data.repositories =
          some (toolItems GhSuccess.repositories (reposResult tr))) ∧
     (toolStatusSuccess (productsResult tr (effConfig cfgOpt) pk) = true →
        (fetch_all_research ⟨some pk, some tk⟩ tr cfgOpt).research_data.products =
          some (toolItems PhSuccess.products (productsResult tr (effConfig cfgOpt) pk))) ∧
     (toolStatusSuccess (tweetsResult tr (effConfig cfgOpt) tk) = true →
        (fetch_all_research ⟨some pk, some tk⟩ tr cfgOpt).research_data.tweets =
          some (toolItems TwitterSuccess.trending_tweets (tweetsResult tr (effConfig cfgOpt) tk)))) ∧
    ((cond (toolStatusSuccess (papersResult tr (effConfig cfgOpt))) 0 1 +
        cond (toolStatusSuccess (reposResult tr)) 0 1 +
        cond (toolStatusSuccess (productsResult tr (effConfig cfgOpt) pk)) 0 1 +
        cond (toolStatusSuccess (tweetsResult tr (effConfig cfgOpt) tk)) 0 1 = 1) →
      (fetch_all_research ⟨some pk, some tk⟩ tr cfgOpt).status = "partial" ∧
      (fetch_all_research ⟨some pk, some tk⟩ tr cfgOpt).sources_fetched = 3 ∧
      (fetch_all_research ⟨some pk, some tk⟩ tr cfgOpt).errors.length = 1 ∧
      (toolStatusSuccess (papersResult tr (effConfig cfgOpt)) = false →
        (fetch_all_research ⟨some pk, some tk⟩ tr cfgOpt).errors =
          ["Papers: " ++ toolMessage (papersResult tr (effConfig cfgOpt))]) ∧
      (toolStatusSuccess (reposResult tr) = false →
        (fetch_all_research ⟨some pk, some tk⟩ tr cfgOpt).errors =
          ["Repos: " ++ toolMessage (reposResult tr)]) ∧
      (toolStatusSuccess (productsResult tr (effConfig cfgOpt) pk) = false →
        (fetch_all_research ⟨some pk, some tk⟩ tr cfgOpt).errors =
          ["Products: " ++ toolMessage (productsResult tr (effConfig cfgOpt) pk)]) ∧
      (toolStatusSuccess (tweetsResult tr (effConfig cfgOpt) tk) = false →
        (fetch_all_research ⟨some pk, some tk⟩ tr cfgOpt).errors =
          ["Tweets: " ++ toolMessage (tweetsResult tr (effConfig cfgOpt) tk)])) := by
  cases hP : toolStatusSuccess (papersResult tr (effConfig cfgOpt)) <;>
  cases hQ : toolStatusSuccess (reposResult tr) <;>
  cases hU : toolStatusSuccess (productsResult tr (effConfig cfgOpt) pk) <;>
  cases hV : toolStatusSuccess (tweetsResult tr (effConfig cfgOpt) tk) <;>
    simp [fetch_all_research, sourceStep, countSome, hP, hQ, hU, hV]

/-- C1 witness: in the world `trW` only the GitHub source fails; the
exactly-one-failure hypothesis holds and the instantiated conclusion
follows from the theorem. -/
theorem fetch_all_single_failure_isolated_witness :
    (cond (toolStatusSuccess (papersResult trW (effConfig none))) 0 1 +
        cond (toolStatusSuccess (reposResult trW)) 0 1 +
        cond (toolStatusSuccess (productsResult trW (effConfig none) "k1")) 0 1 +
        cond (toolStatusSuccess (tweetsResult trW (effConfig none) "k2")) 0 1 = 1) ∧
    ((fetch_all_research ⟨some "k1", some "k2"⟩ trW none).status = "partial" ∧
      (fetch_all_research ⟨some "k1", some "k2"⟩ trW none).sources_fetched = 3 ∧
      (fetch_all_research ⟨some "k1", some "k2"⟩ trW none).errors.length = 1 ∧
      (toolStatusSuccess (papersResult trW (effConfig none)) = false →
        (fetch_all_research ⟨some "k1", some "k2"⟩ trW none).errors =
          ["Papers: " ++ toolMessage (papersResult trW (effConfig none))]) ∧
      (toolStatusSuccess (reposResult trW) = false →
        (fetch_all_research ⟨some "k1", some "k2"⟩ trW none).errors =
          ["Repos: " ++ toolMessage (reposResult trW)]) ∧
      (toolStatusSuccess (productsResult trW (effConfig none) "k1") = false →
        (fetch_all_research ⟨some "k1", some "k2"⟩ trW none).errors =
          ["Products: " ++ toolMessage (productsResult trW (effConfig none) "k1")]) ∧
      (toolStatusSuccess (tweetsResult trW (effConfig none) "k2") = false →
        (fetch_all_research ⟨some "k1", some "k2"⟩ trW none).errors =
          ["Tweets: " ++ toolMessage (tweetsResult trW (effConfig none) "k2")])) :=
  ⟨by decide, (fetch_all_single_failure_isolated "k1" "k2" trW none).2 (by decide)⟩

/-- C4 (amended): the `days_back` and `max_papers` overrides (defaults 7
and 10) determine the paper fetch, `days_back` and `max_products`
(defaults 7 and 10) the product fetch, and `days_back` (default 7) is
passed to the social fetch, whose provider request is nevertheless always
the default-hashtag query with page size 100; the repo fetch ignores the
config entirely — always timeframe `"weekly"` with page size 10, and
`max_repos` is never used.  Formally, the aggregate result depends on the
transports only at those requests. -/
theorem fetch_all_config_application :
    (∀ (env : Env) (tr tr' : Transports) (cfgOpt : Option FAConfig),
      tr.now = tr'.now →
      tr.arxiv ((effConfig cfgOpt).max_papers.getD 10 * 2) =
        tr'.arxiv ((effConfig cfgOpt).max_papers.getD 10 * 2) →
      tr.github (github_params "python" "weekly" "artificial-intelligence" tr.now) =
        tr'.github (github_params "python" "weekly" "artificial-intelligence" tr.now) →
      tr.producthunt ⟨(effConfig cfgOpt).max_products.getD 10⟩ =
        tr'.producthunt ⟨(effConfig cfgOpt).max_products.getD 10⟩ →
      tr.twitter ⟨twQuery twDefaultHashtags, 100⟩ =
        tr'.twitter ⟨twQuery twDefaultHashtags, 100⟩ →
      fetch_all_research env tr cfgOpt = fetch_all_research env tr' cfgOpt) ∧
    (∀ now : Int, (github_params "python" "weekly" "artificial-intelligence" now).per_page = 10) := by
  refine ⟨fun env tr tr' cfgOpt h1 h2 h3 h4 h5 => ?_, fun now => rfl⟩
  rcases env with ⟨pk, tk⟩
  rw [h1] at h3
  cases pk <;> cases tk <;>
    simp only [fetch_all_research, papersResult, reposResult, productsResult, tweetsResult,
      search_arxiv_papers, fetch_github_trending, search_product_hunt, fetch_twitter_trends,
      Option.getD_none, h1, h2, h3, h4, h5]

/-- C4 witness: the extensionality hypotheses discharged at two concrete
worlds that differ on the arXiv transport away from the issued request
size 20. -/
theorem fetch_all_config_application_witness :
    fetch_all_research ⟨some "k1", some "k2"⟩ trW none =
      fetch_all_research ⟨some "k1", some "k2"⟩
        { trW with arxiv := fun n => if n = 20 then .ok [] else .exn .timeout } none :=
  fetch_all_config_application.1 ⟨some "k1", some "k2"⟩ trW
    { trW with arxiv := fun n => if n = 20 then .ok [] else .exn .timeout } none
    rfl (by decide) rfl rfl rfl

/-- C4 counterexample: overriding `max_repos` to 3 changes nothing — the
GitHub request still has page size 10 and a provider page of 10
repositories is recorded in full, identical to a run with `max_repos`
10, so the `max_repos` override is not applied to the repo fetch. -/
theorem fetch_all_max_repos_ignored :
    cfgMR3.max_repos = some 3 ∧
    cfgMR3.max_repos ≠ cfgMR10.max_repos ∧
    (fetch_all_research ⟨none, none⟩ trTenRepos (some cfgMR3)).research_data.repositories =
      some (List.replicate 10 (mkRepo repoRaw0)) ∧
    (List.replicate 10 (mkRepo repoRaw0)).length = 10 ∧
    ¬ ((List.replicate 10 (mkRepo repoRaw0)).length ≤ 3) ∧
    (fetch_all_research ⟨none, none⟩ trTenRepos (some cfgMR3)).research_data =
      (fetch_all_research ⟨none, none⟩ trTenRepos (some cfgMR10)).research_data ∧
    (github_params "python" "weekly" "artificial-intelligence" 0).per_page = 10 := by
  exact ⟨rfl, by decide, by decide, by decide, by decide, by decide, rfl⟩
